import Mathlib

/-!
Shallow embedding of the `sharedcreds` credential provider
(package `sharedcreds` of the aws-sdk-go fork): the shared-credentials
file provider with role chaining and an optional file-backed STS
response cache.

Modelling conventions:
* Go strings are Lean `String` (a structure over `List Char`).
* Go pointers (`*sts.AssumeRoleOutput`, `*string`, `*time.Time`) are
  `Option`; a nil-pointer dereference surfaces as the `crash` outcome.
* `time.Time` and `time.Duration` are `Int` (nanoseconds; the zero
  value of `time.Time` is `0`).
* Environment lookups (`os.Getenv`) are explicit `String` parameters
  (the empty string meaning the variable is unset), and the parsed ini
  file is an explicit association-list parameter (`none` meaning
  `ini.Load` failed).
* The injected STS client (`AssumeRoler.AssumeRole`) is an explicit
  function parameter returning the Go pair `(*AssumeRoleOutput, error)`
  as `Option AssumeRoleOutput × Option AWSErr`; the construction of a
  default client (`sts.New(session.New())`) is a network-side effect
  outside the embedding, so a client is always supplied.
* The cache directory contents are an explicit association list from
  file name to stored response (JSON marshalling is abstracted as the
  identity on well-formed stored values).
* Calls to the network client and to `Cache.Set` are counted in the
  result record so that claims about the number of invocations can be
  stated.
-/

namespace SharedCreds

/-- Embedding of `awserr.Error` as produced by `awserr.New`: a code and a
message (the wrapped original error is dropped, it never influences
control flow in this package). -/
structure AWSErr where
  code : String
  message : String
deriving DecidableEq

/-- Constant `SharedCredsProviderName`. -/
def SharedCredsProviderName : String := "SharedCredentialsProvider"

/-- Constant `ErrSharedCredentialsHomeNotFound`. -/
def ErrSharedCredentialsHomeNotFound : AWSErr :=
  ⟨"UserHomeNotFound", "user home directory not found."⟩

/-- Constant `DefaultDuration = time.Duration(15) * time.Minute`, in
nanoseconds. -/
def DefaultDuration : Int := 15 * 60 * 1000000000

/-- Embedding of `credentials.Value` with the fields this fork uses
(`ExternalID` is carried by the struct but never read from the ini
file). -/
structure Value where
  AccessKeyID : String := ""
  SecretAccessKey : String := ""
  SessionToken : String := ""
  ProviderName : String := ""
  RoleARN : String := ""
  RoleSessionName : String := ""
  SourceProfile : String := ""
  ExternalID : String := ""
  MFASerial : String := ""
deriving DecidableEq

/-- Modelled from the spec: `credentials.Expiry` is not under `src/`
(only its embedding in the provider struct is). Per the spec, the
resolver state tracks an expiration timestamp with the expiry window
already applied: `SetExpiration` stores `expiration − window` (the
window is ignored when it is not positive, per the `ExpiryWindow`
documentation in the source), and `IsExpired` reports whether the
current time is at or past that stored instant. The zero value has
expiration `0`, the zero time, so `IsExpired` holds at any nonnegative
current time before the first `SetExpiration`. -/
structure Expiry where
  expiration : Int := 0
deriving DecidableEq

/-- Modelled from the spec: `Expiry.SetExpiration` stores the expiration
minus the window when the window is positive. -/
def Expiry.SetExpiration (_e : Expiry) (expiration window : Int) : Expiry :=
  ⟨if 0 < window then expiration - window else expiration⟩

/-- Modelled from the spec: `Expiry.IsExpired` at current time `now` is
true when `now` is at or past the stored (window-adjusted)
expiration. -/
def Expiry.IsExpired (e : Expiry) (now : Int) : Bool :=
  decide (e.expiration ≤ now)

/-- Embedding of `STSOptions` (the `Client` field is an injected
collaborator, passed to `Assume` as a function parameter instead of
being stored). -/
structure STSOptions where
  Duration : Int := 0
  ExpiryWindow : Int := 0
deriving DecidableEq

/-- Embedding of `SharedCredentialsProvider`: the embedded
`credentials.Expiry`, the configuration fields, and the `retrieved`
flag. The `CacheProvider` field is fixed to the default
`JSONFileCacheProvider`, whose cache directory is the `cacheDir`
parameter of `Assume`. -/
structure SharedCredentialsProvider where
  Expiry : Expiry := {}
  Filename : String := ""
  Profile : String := ""
  retrieved : Bool := false
  Cache : Bool := false
  STS : STSOptions := {}
deriving DecidableEq

/-- Embedding of `SharedCredentialsProvider.IsExpired`:
`!p.retrieved && p.Expiry.IsExpired()`. -/
def SharedCredentialsProvider.IsExpired (p : SharedCredentialsProvider)
    (now : Int) : Bool :=
  !p.retrieved && p.Expiry.IsExpired now

/-- Embedding of `sts.Credentials` (all fields are pointers in Go). -/
structure Credentials where
  AccessKeyId : Option String
  SecretAccessKey : Option String
  SessionToken : Option String
  Expiration : Option Int
deriving DecidableEq

/-- Embedding of `sts.AssumeRoleOutput` (the `Credentials` field is a
pointer in Go). -/
structure AssumeRoleOutput where
  Credentials : Option Credentials
deriving DecidableEq

/-- Embedding of `sts.AssumeRoleInput` ( `DurationSeconds`, `RoleArn`
and `RoleSessionName` are built with `aws.Int64` / `aws.String` from
always-present values, so they are plain fields here; `ExternalId` is
passed through from the profile). -/
structure AssumeRoleInput where
  DurationSeconds : Int
  RoleArn : String
  RoleSessionName : String
  ExternalId : String
deriving DecidableEq

/-- The type of the injected STS client: the Go signature
`AssumeRole(input) (*sts.AssumeRoleOutput, error)`. -/
abbrev AssumeRoler := AssumeRoleInput → Option AssumeRoleOutput × Option AWSErr

/-- Contents of the cache directory: file name to stored response. A
later write shadows an earlier entry (lookup takes the first match). -/
abbrev FS := List (String × AssumeRoleOutput)

/-- Embedding of `FileCache`. -/
structure FileCache where
  FileName : String
deriving DecidableEq

/-- Embedding of `FileCache.Get`: read the file and unmarshal it; a
missing file is the `ioutil.ReadFile` error. Stored values are
well-formed, so unmarshalling of a present file succeeds. -/
def FileCache.Get (c : FileCache) (fs : FS) :
    Option AssumeRoleOutput × Option AWSErr :=
  match List.lookup c.FileName fs with
  | none => (none, some ⟨"CacheReadFailure", "open: no such file"⟩)
  | some out => (some out, none)

/-- Embedding of `FileCache.IsExpired`: the source returns `true`
unconditionally. -/
def FileCache.IsExpired (_c : FileCache) : Bool :=
  true

/-- Embedding of `FileCache.Set`: `json.Marshal(*response)` dereferences
the response pointer, so a `none` response is a nil-pointer dereference
(`none` result); otherwise the marshalled value is written to the file,
shadowing any previous entry. -/
def FileCache.Set (c : FileCache) (fs : FS) (response : Option AssumeRoleOutput) :
    Option (FS × Option AWSErr) :=
  match response with
  | none => none
  | some out => some ((c.FileName, out) :: fs, none)

/-- Embedding of `strings.Replace(s, ":", "_", -1)`: a single-character
full replacement is a character map. -/
def replaceColons (s : String) : String :=
  ⟨s.data.map fun c => if c = ':' then '_' else c⟩

/-- Embedding of `JSONFileCacheProvider.getCacheKey`: replace every colon
in the role ARN with an underscore, join the profile and the sanitized
ARN with `"--"`, and append the session name with `"--"` when it is
nonempty. -/
def getCacheKey (profile roleArn roleSessionName : String) : String :=
  let arn : String := replaceColons roleArn
  let cacheKey := profile ++ "--" ++ arn
  if roleSessionName = "" then cacheKey else cacheKey ++ "--" ++ roleSessionName

/-- Embedding of `JSONFileCacheProvider.Get`: the cache file lives in the
(already tilde-expanded) cache directory under `<cacheKey>.json`
(`filepath.Join` on the supported platforms inserts a slash). -/
def JSONFileCacheProviderGet (cacheDir profile roleArn roleSessionName : String) :
    FileCache :=
  ⟨cacheDir ++ "/" ++ getCacheKey profile roleArn roleSessionName ++ ".json"⟩

/-- Outcome of a `Retrieve` or `Assume` run: the Go pair
`(credentials.Value, error)`, plus `crash` for a Go runtime panic
(nil-pointer dereference). -/
inductive Outcome where
  | ok (v : Value)
  | err (e : AWSErr)
  | crash
deriving DecidableEq

/-- Result record of a run: outcome, post-state of the provider,
post-state of the cache directory, number of calls to the network
client, and whether `Cache.Set` was invoked. -/
structure RunResult where
  outcome : Outcome
  provider : SharedCredentialsProvider
  fs : FS
  clientCalls : Nat
  setCalled : Bool

/-- Tail of `Assume` after the role output and error have been
computed: on a non-nil error return the zero `Value` and the error;
otherwise dereference `roleOutput.Credentials` (a nil `roleOutput` or
nil `Credentials` or nil field is a runtime panic), set the expiration
from the response, and build the returned `Value`. -/
def finishAssume (p : SharedCredentialsProvider) (roleOutput : Option AssumeRoleOutput)
    (err : Option AWSErr) (fs : FS) (calls : Nat) (setCalled : Bool) : RunResult :=
  match err with
  | some e => ⟨Outcome.err e, p, fs, calls, setCalled⟩
  | none =>
    match roleOutput with
    | none => ⟨Outcome.crash, p, fs, calls, setCalled⟩
    | some out =>
      match out.Credentials with
      | none => ⟨Outcome.crash, p, fs, calls, setCalled⟩
      | some c =>
        match c.Expiration, c.AccessKeyId, c.SecretAccessKey, c.SessionToken with
        | some exp, some ak, some sk, some st =>
          let p := { p with
            Expiry := p.Expiry.SetExpiration exp p.STS.ExpiryWindow }
          ⟨Outcome.ok ⟨ak, sk, st, SharedCredsProviderName, "", "", "", "", ""⟩,
            p, fs, calls, setCalled⟩
        | _, _, _, _ => ⟨Outcome.crash, p, fs, calls, setCalled⟩

/-- The default applied by `Assume` to the STS options: a zero duration
becomes `DefaultDuration` (factored out of the `Assume` body). -/
def applySTSDefaults (p : SharedCredentialsProvider) : SharedCredentialsProvider :=
  if p.STS.Duration = 0 then
    { p with STS := { p.STS with Duration := DefaultDuration } } else p

/-- Embedding of `SharedCredentialsProvider.Assume`. `client` is the
injected STS client, `nowNano` the value of `time.Now().UTC().UnixNano()`,
`cacheDir` the expanded cache directory of the default
`JSONFileCacheProvider`, and `fs` the current cache directory contents.
The `sourceCredentials` parameter is accepted and, as in the source,
never read. -/
def SharedCredentialsProvider.Assume (p : SharedCredentialsProvider)
    (client : AssumeRoler) (nowNano : Int) (cacheDir : String) (fs : FS)
    (creds _sourceCredentials : Value) : RunResult :=
  let creds := if creds.RoleSessionName = "" then
    { creds with RoleSessionName := toString nowNano } else creds
  let p := applySTSDefaults p
  let input : AssumeRoleInput :=
    ⟨p.STS.Duration / 1000000000, creds.RoleARN, creds.RoleSessionName,
      creds.ExternalID⟩
  if p.Cache then
    let cache := JSONFileCacheProviderGet cacheDir creds.SourceProfile
      creds.RoleARN creds.RoleSessionName
    if !cache.IsExpired then
      let (roleOutput, err) := cache.Get fs
      finishAssume p roleOutput err fs 0 false
    else
      let (roleOutput, err) := client input
      match err with
      | some _ =>
        match cache.Set fs roleOutput with
        | none => ⟨Outcome.crash, p, fs, 1, true⟩
        | some (fs2, err2) => finishAssume p roleOutput err2 fs2 1 true
      | none => finishAssume p roleOutput none fs 1 false
  else
    let (roleOutput, err) := client input
    finishAssume p roleOutput err fs 1 false

/-- A parsed ini file: section name to section, a section being key to
value. The parser itself is an external collaborator; `Key(k).String()`
of a missing key is the empty string. -/
abbrev IniFile := List (String × List (String × String))

/-- Section lookup, `config.GetSection`. -/
def getSection (config : IniFile) (profile : String) :
    Option (List (String × String)) :=
  List.lookup profile config

/-- Key lookup inside a section, `iniProfile.Key(k).String()`. -/
def keyString (sec : List (String × String)) (k : String) : String :=
  (List.lookup k sec).getD ""

/-- Embedding of `validate`. -/
def validate (value : Value) (filename profile : String) : Except AWSErr Value :=
  if value.RoleARN = "" then
    if value.AccessKeyID = "" then
      .error ⟨"SharedCredsAccessKey",
        "shared credentials " ++ profile ++ " in " ++ filename ++
          " did not contain aws_access_key_id"⟩
    else if value.SecretAccessKey = "" then
      .error ⟨"SharedCredsSecret",
        "shared credentials " ++ profile ++ " in " ++ filename ++
          " did not contain aws_secret_access_key"⟩
    else .ok value
  else
    if value.SourceProfile = "" then
      .error ⟨"SharedCredsSourceProfile",
        "shared credentials " ++ profile ++ " in " ++ filename ++
          " did not contain source_profile"⟩
    else .ok value

/-- Embedding of `loadProfile`: `file` is the result of
`ini.Load(filename)` (`none` when loading failed), then section lookup,
field extraction (`external_id` is never read) and validation. -/
def loadProfile (file : Option IniFile) (filename profile : String) :
    Except AWSErr Value :=
  match file with
  | none => .error ⟨"SharedCredsLoad", "failed to load shared credentials file"⟩
  | some config =>
    match getSection config profile with
    | none => .error ⟨"SharedCredsLoad", "failed to get profile"⟩
    | some sec =>
      validate
        ⟨keyString sec "aws_access_key_id",
         keyString sec "aws_secret_access_key",
         keyString sec "aws_session_token",
         SharedCredsProviderName,
         keyString sec "role_arn",
         keyString sec "role_session_name",
         keyString sec "source_profile",
         "",
         keyString sec "mfa_serial"⟩
        filename profile

/-- Embedding of `SharedCredentialsProvider.filename`: explicit filename,
else the `AWS_SHARED_CREDENTIALS_FILE` environment variable, else
`<home>/.aws/credentials` from `HOME` or `USERPROFILE`, else the
home-not-found error. (The Go method also caches the result in
`p.Filename`; that memoisation is invisible to the claims and not
modelled.) -/
def SharedCredentialsProvider.filename (p : SharedCredentialsProvider)
    (envSharedFile envHome envUserProfile : String) : Except AWSErr String :=
  if p.Filename ≠ "" then .ok p.Filename
  else if envSharedFile ≠ "" then .ok envSharedFile
  else
    let homeDir := if envHome ≠ "" then envHome else envUserProfile
    if homeDir = "" then .error ErrSharedCredentialsHomeNotFound
    else .ok (homeDir ++ "/.aws/credentials")

/-- Embedding of `SharedCredentialsProvider.profile`: explicit profile,
else the `AWS_PROFILE` environment variable, else `"default"`. -/
def SharedCredentialsProvider.profile (p : SharedCredentialsProvider)
    (envProfile : String) : String :=
  if p.Profile ≠ "" then p.Profile
  else if envProfile ≠ "" then envProfile
  else "default"

/-- Embedding of `SharedCredentialsProvider.Retrieve`: reset the
`retrieved` flag, resolve filename and profile, load the primary
profile; on a role-chained profile default the source profile to
`"default"`, load it and delegate to `Assume`; otherwise set the
`retrieved` flag and return the static fields. -/
def SharedCredentialsProvider.Retrieve (p : SharedCredentialsProvider)
    (envSharedFile envHome envUserProfile envProfile : String)
    (file : Option IniFile) (client : AssumeRoler) (nowNano : Int)
    (cacheDir : String) (fs : FS) : RunResult :=
  let p := { p with retrieved := false }
  match p.filename envSharedFile envHome envUserProfile with
  | .error e => ⟨Outcome.err e, p, fs, 0, false⟩
  | .ok filename =>
    match loadProfile file filename (p.profile envProfile) with
    | .error e => ⟨Outcome.err e, p, fs, 0, false⟩
    | .ok creds =>
      if creds.RoleARN ≠ "" then
        let creds := if creds.SourceProfile = "" then
          { creds with SourceProfile := "default" } else creds
        match loadProfile file filename creds.SourceProfile with
        | .error e => ⟨Outcome.err e, p, fs, 0, false⟩
        | .ok sourceCreds => p.Assume client nowNano cacheDir fs creds sourceCreds
      else
        let p := { p with retrieved := true }
        ⟨Outcome.ok creds, p, fs, 0, false⟩

/-! Concrete example inputs used by several witnesses and
counterexamples. -/

/-- A network client that always succeeds with a fully populated
response expiring at time `1000`. -/
def exOkClient : AssumeRoler := fun _ =>
  (some ⟨some ⟨some "AK", some "SK", some "ST", some 1000⟩⟩, none)

/-- A network client that always fails with a nil response, as the Go
STS client does on a transport error. -/
def exErrClient : AssumeRoler := fun _ =>
  (none, some ⟨"AssumeRoleFailure", "connection refused"⟩)

/-- A provider configured with an explicit file name and profile and with
response caching enabled. -/
def exProvider : SharedCredentialsProvider :=
  { Filename := "f", Profile := "p", Cache := true }

/-- A credentials file with a role-chained profile `p` and its static
source profile `s`. -/
def exRoleCfg : IniFile :=
  [("p", [("role_arn", "arn:aws:iam::1:role/x"), ("source_profile", "s"),
          ("role_session_name", "n")]),
   ("s", [("aws_access_key_id", "A"), ("aws_secret_access_key", "B")])]

/-- The cache file name `Assume` addresses for the role-chained profile
of `exRoleCfg` under cache directory `d`. -/
def exCacheFile : String :=
  "d/" ++ getCacheKey "s" "arn:aws:iam::1:role/x" "n" ++ ".json"

/-- A cache directory holding a fresh entry for that file: the stored
response expires at time `999999`, far in the future. -/
def exFreshFS : FS :=
  [(exCacheFile, ⟨some ⟨some "CAK", some "CSK", some "CST", some 999999⟩⟩)]

/-! Auxiliary lemmas about state preservation across the embedded
operations. -/

/-- Applying the STS duration default leaves the `retrieved` flag
unchanged. -/
theorem applySTSDefaults_retrieved (p : SharedCredentialsProvider) :
    (applySTSDefaults p).retrieved = p.retrieved := by
  unfold applySTSDefaults; split <;> rfl

/-- Applying the STS duration default leaves the `Cache` flag
unchanged. -/
theorem applySTSDefaults_Cache (p : SharedCredentialsProvider) :
    (applySTSDefaults p).Cache = p.Cache := by
  unfold applySTSDefaults; split <;> rfl

/-- Applying the STS duration default leaves the expiry state
unchanged. -/
theorem applySTSDefaults_Expiry (p : SharedCredentialsProvider) :
    (applySTSDefaults p).Expiry = p.Expiry := by
  unfold applySTSDefaults; split <;> rfl

/-- Applying the STS duration default leaves the expiry window
unchanged. -/
theorem applySTSDefaults_ExpiryWindow (p : SharedCredentialsProvider) :
    (applySTSDefaults p).STS.ExpiryWindow = p.STS.ExpiryWindow := by
  unfold applySTSDefaults; split <;> rfl

/-- The tail of `Assume` never changes the `retrieved` flag. -/
theorem finishAssume_retrieved (p : SharedCredentialsProvider)
    (ro : Option AssumeRoleOutput) (err : Option AWSErr) (fs : FS)
    (calls : Nat) (sc : Bool) :
    (finishAssume p ro err fs calls sc).provider.retrieved = p.retrieved := by
  rcases err with _ | e
  · rcases ro with _ | out
    · rfl
    · rcases out with ⟨_ | cr⟩
      · rfl
      · rcases cr with ⟨ak, sk, st, ex⟩
        rcases ex with _ | ex <;> rcases ak with _ | ak <;>
          rcases sk with _ | sk <;> rcases st with _ | st <;> rfl
  · rfl

/-- `Assume` never changes the `retrieved` flag. -/
theorem assume_retrieved (p : SharedCredentialsProvider) (client : AssumeRoler)
    (nowNano : Int) (cacheDir : String) (fs : FS) (creds src : Value) :
    (p.Assume client nowNano cacheDir fs creds src).provider.retrieved =
      p.retrieved := by
  unfold SharedCredentialsProvider.Assume
  dsimp only
  split
  · simp only [FileCache.IsExpired, Bool.not_true, Bool.false_eq_true, if_false]
    rcases h : client _ with ⟨ro, err⟩
    rcases err with _ | e
    · rw [finishAssume_retrieved, applySTSDefaults_retrieved]
    · rcases ro with _ | out
      · simp [FileCache.Set, applySTSDefaults_retrieved]
      · simp only [FileCache.Set]
        rw [finishAssume_retrieved, applySTSDefaults_retrieved]
  · rcases h : client _ with ⟨ro, err⟩
    rw [finishAssume_retrieved, applySTSDefaults_retrieved]

/-- Resetting the `retrieved` flag does not affect filename
resolution. -/
theorem filename_reset (p : SharedCredentialsProvider) (e1 e2 e3 : String) :
    SharedCredentialsProvider.filename { p with retrieved := false } e1 e2 e3 =
      p.filename e1 e2 e3 := rfl

/-- Resetting the `retrieved` flag does not affect profile-name
resolution. -/
theorem profile_reset (p : SharedCredentialsProvider) (envP : String) :
    SharedCredentialsProvider.profile { p with retrieved := false } envP =
      p.profile envP := rfl

/-- Loading a static profile (empty role ARN, both keys present) returns
the extracted fields unchanged. -/
theorem loadProfile_static (config : IniFile) (sec : List (String × String))
    (fn prof : String)
    (hsec : getSection config prof = some sec)
    (hrole : keyString sec "role_arn" = "")
    (hak : keyString sec "aws_access_key_id" ≠ "")
    (hsk : keyString sec "aws_secret_access_key" ≠ "") :
    loadProfile (some config) fn prof = .ok
      ⟨keyString sec "aws_access_key_id", keyString sec "aws_secret_access_key",
       keyString sec "aws_session_token", SharedCredsProviderName,
       keyString sec "role_arn", keyString sec "role_session_name",
       keyString sec "source_profile", "", keyString sec "mfa_serial"⟩ := by
  unfold loadProfile
  dsimp only
  rw [hsec]
  unfold validate
  simp [hrole, hak, hsk]

/-- Loading a role-chained profile with an empty source profile fails
with the source-profile error. -/
theorem loadProfile_missing_source (config : IniFile)
    (sec : List (String × String)) (fn prof : String)
    (hsec : getSection config prof = some sec)
    (hrole : keyString sec "role_arn" ≠ "")
    (hsrc : keyString sec "source_profile" = "") :
    loadProfile (some config) fn prof = .error
      ⟨"SharedCredsSourceProfile",
        "shared credentials " ++ prof ++ " in " ++ fn ++
          " did not contain source_profile"⟩ := by
  unfold loadProfile
  dsimp only
  rw [hsec]
  unfold validate
  simp [hrole, hsrc]

/-- Claim C1. With caching enabled and the cache entry absent, a
role-chained `Retrieve` that succeeds over the network invokes the
client exactly once — but the response is never persisted: `Cache.Set`
is not invoked and the cache store is unchanged, so nothing is
retrievable from it afterward. The persistence half of the claim fails
on the code, which calls `Set` only when the network call errors. -/
theorem C1_success_not_persisted :
    (exProvider.Retrieve "" "" "" "" (some exRoleCfg) exOkClient 7 "d" []).clientCalls = 1 ∧
    (exProvider.Retrieve "" "" "" "" (some exRoleCfg) exOkClient 7 "d" []).setCalled = false ∧
    (exProvider.Retrieve "" "" "" "" (some exRoleCfg) exOkClient 7 "d" []).fs = [] ∧
    (exProvider.Retrieve "" "" "" "" (some exRoleCfg) exOkClient 7 "d" []).outcome =
      Outcome.ok ⟨"AK", "SK", "ST", SharedCredsProviderName, "", "", "", "", ""⟩ :=
  ⟨rfl, rfl, rfl, rfl⟩

/-- Claim C2. The file-backed cache reports every entry expired
unconditionally, so even with a fresh entry present in the store, a
role-chained `Retrieve` with caching enabled bypasses the cache and
invokes the network client once (not zero times), returning the network
response instead of the cached data. -/
theorem C2_fresh_entry_bypassed :
    (∀ c : FileCache, c.IsExpired = true) ∧
    (exProvider.Retrieve "" "" "" "" (some exRoleCfg) exOkClient 7 "d" exFreshFS).clientCalls = 1 ∧
    (exProvider.Retrieve "" "" "" "" (some exRoleCfg) exOkClient 7 "d" exFreshFS).outcome =
      Outcome.ok ⟨"AK", "SK", "ST", SharedCredsProviderName, "", "", "", "", ""⟩ :=
  ⟨fun _ => rfl, rfl, rfl⟩

/-- Claim C4. With caching enabled, a network failure is not propagated
unchanged: the code overwrites the error with the outcome of
`cache.Set` on the nil response, which here is a nil-pointer crash
rather than the original `AssumeRoleFailure`; with caching disabled the
same failure is propagated unchanged. -/
theorem C4_error_replaced_by_cache_set :
    (exProvider.Retrieve "" "" "" "" (some exRoleCfg) exErrClient 7 "d" []).outcome =
      Outcome.crash ∧
    ({ exProvider with Cache := false }.Retrieve "" "" "" "" (some exRoleCfg)
        exErrClient 7 "d" []).outcome =
      Outcome.err ⟨"AssumeRoleFailure", "connection refused"⟩ :=
  ⟨rfl, rfl⟩

/-- Claim C3, counterexample. The claimed equivalence — `IsExpired` true
iff the retrieved flag is false OR the time bound is reached — fails: a
provider with the flag set and the zero expiration is past the time
bound at time `5`, yet `IsExpired` is false, because the code conjoins
the two conditions instead of disjoining them. -/
theorem C3_counterexample :
    ¬ ((SharedCredentialsProvider.IsExpired { retrieved := true } 5) = true ↔
      (({ retrieved := true } : SharedCredentialsProvider).retrieved = false ∨
        ({ retrieved := true } : SharedCredentialsProvider).Expiry.expiration ≤ 5)) := by
  decide

/-- Claim C6, counterexample. The cache key map is not injective: the
triples `("a", "b", "c")` and `("a--b", "c", "")` differ in every field
yet map to the same key `"a--b--c"`. -/
theorem C6_counterexample :
    getCacheKey "a" "b" "c" = getCacheKey "a--b" "c" "" ∧
      (("a", "b", "c") : String × String × String) ≠ ("a--b", "c", "") := by
  exact ⟨rfl, by decide⟩

/-- A string is empty exactly when its character list is empty. -/
theorem string_eq_empty_iff (s : String) : s = "" ↔ s.data = [] :=
  ⟨fun h => h ▸ rfl, String.ext⟩

/-- The colon-to-underscore character map never leaves a colon in its
output. -/
theorem replaceColons_no_colon (s : String) : ':' ∉ (replaceColons s).data := by
  intro h
  rcases List.mem_map.mp h with ⟨c, _, hc⟩
  by_cases h' : c = ':' <;> simp [h'] at hc

/-- The colon-to-underscore character map introduces no hyphen. -/
theorem replaceColons_no_hyphen (s : String) (h : '-' ∉ s.data) :
    '-' ∉ (replaceColons s).data := by
  intro hm
  rcases List.mem_map.mp hm with ⟨c, hmem, hc⟩
  by_cases h' : c = ':'
  · simp [h'] at hc
  · simp [h'] at hc
    subst hc
    exact absurd hmem h

/-- On character lists without underscores, the colon-to-underscore map
is injective. -/
theorem mapColon_inj : ∀ (l1 l2 : List Char), '_' ∉ l1 → '_' ∉ l2 →
    l1.map (fun c => if c = ':' then '_' else c) =
      l2.map (fun c => if c = ':' then '_' else c) → l1 = l2 := by
  intro l1
  induction l1 with
  | nil => intro l2 _ _ h; cases l2 with
    | nil => rfl
    | cons c l => simp at h
  | cons c l ih =>
    intro l2 h1 h2 h
    cases l2 with
    | nil => simp at h
    | cons d m =>
      simp only [List.map_cons, List.cons.injEq] at h
      have hc : c ≠ '_' := fun hc => h1 (hc ▸ List.mem_cons_self c l)
      have hd : d ≠ '_' := fun hd => h2 (hd ▸ List.mem_cons_self d m)
      have hcd : c = d := by
        by_cases hcc : c = ':' <;> by_cases hdd : d = ':' <;>
          simp [hcc, hdd] at h <;> first
          | exact hcc.trans hdd.symm
          | exact absurd h.1.symm hd
          | exact absurd h.1 hc
          | exact h.1
      exact congrArg₂ List.cons hcd
        (ih m (fun hm => h1 (List.mem_cons_of_mem c hm))
          (fun hm => h2 (List.mem_cons_of_mem d hm)) h.2)

/-- A list of the shape `prefixPart ++ '-' :: '-' :: rest`, with no
hyphen in `prefixPart`, determines both parts. -/
theorem splitSep : ∀ (p1 p2 r1 r2 : List Char), '-' ∉ p1 → '-' ∉ p2 →
    p1 ++ '-' :: '-' :: r1 = p2 ++ '-' :: '-' :: r2 → p1 = p2 ∧ r1 = r2 := by
  intro p1
  induction p1 with
  | nil =>
    intro p2 r1 r2 _ h2 h
    cases p2 with
    | nil => simpa using h
    | cons d m =>
      simp only [List.nil_append, List.cons_append, List.cons.injEq] at h
      exact absurd (h.1 ▸ List.mem_cons_self d m) h2
  | cons c l ih =>
    intro p2 r1 r2 h1 h2 h
    cases p2 with
    | nil =>
      simp only [List.cons_append, List.nil_append, List.cons.injEq] at h
      exact absurd (h.1 ▸ List.mem_cons_self c l) h1
    | cons d m =>
      simp only [List.cons_append, List.cons.injEq] at h
      have := ih m r1 r2 (fun hm => h1 (List.mem_cons_of_mem c hm))
        (fun hm => h2 (List.mem_cons_of_mem d hm)) h.2
      exact ⟨by rw [h.1, this.1], this.2⟩

/-- Character-list shape of a cache key. -/
theorem getCacheKey_data (p a s : String) :
    (getCacheKey p a s).data =
      if s = "" then p.data ++ '-' :: '-' :: (replaceColons a).data
      else p.data ++ '-' :: '-' :: ((replaceColons a).data ++ '-' :: '-' :: s.data) := by
  by_cases h : s = "" <;>
    simp [getCacheKey, h, String.data_append]

/-- Claim C6, amended. The cache key map replaces every colon of the role
identifier by an underscore (no colon survives sanitization), and it is
injective on triples whose profile name contains no hyphen and whose
role identifier contains neither hyphen nor underscore; it is not
injective on arbitrary triples. -/
theorem C6_amended_key_injective :
    (∀ arn : String, ':' ∉ (replaceColons arn).data) ∧
    (∀ p1 p2 a1 a2 s1 s2 : String,
      '-' ∉ p1.data → '-' ∉ p2.data →
      '-' ∉ a1.data → '-' ∉ a2.data →
      '_' ∉ a1.data → '_' ∉ a2.data →
      getCacheKey p1 a1 s1 = getCacheKey p2 a2 s2 →
      p1 = p2 ∧ a1 = a2 ∧ s1 = s2) := by
  refine ⟨replaceColons_no_colon, ?_⟩
  intro p1 p2 a1 a2 s1 s2 hp1 hp2 ha1 ha2 hu1 hu2 hkey
  have hdata := congrArg String.data hkey
  rw [getCacheKey_data, getCacheKey_data] at hdata
  have hA1 : '-' ∉ (replaceColons a1).data := replaceColons_no_hyphen a1 ha1
  have hA2 : '-' ∉ (replaceColons a2).data := replaceColons_no_hyphen a2 ha2
  have harn : (replaceColons a1).data = (replaceColons a2).data → a1 = a2 := by
    intro h
    exact String.ext (mapColon_inj a1.data a2.data hu1 hu2 h)
  by_cases h1 : s1 = "" <;> by_cases h2 : s2 = "" <;>
    simp only [h1, h2, if_pos, if_neg, if_true, if_false] at hdata
  · rcases splitSep p1.data p2.data _ _ hp1 hp2 hdata with ⟨hpe, hre⟩
    exact ⟨String.ext hpe, harn hre, h1.trans h2.symm⟩
  · rcases splitSep p1.data p2.data _ _ hp1 hp2 hdata with ⟨_, hre⟩
    have : '-' ∈ (replaceColons a1).data := by
      rw [hre]
      exact List.mem_append_right _ (List.mem_cons_self _ _)
    exact absurd this hA1
  · rcases splitSep p1.data p2.data _ _ hp1 hp2 hdata with ⟨_, hre⟩
    have : '-' ∈ (replaceColons a2).data := by
      rw [← hre]
      exact List.mem_append_right _ (List.mem_cons_self _ _)
    exact absurd this hA2
  · rcases splitSep p1.data p2.data _ _ hp1 hp2 hdata with ⟨hpe, hre⟩
    rcases splitSep _ _ _ _ hA1 hA2 hre with ⟨hae, hse⟩
    exact ⟨String.ext hpe, harn hae, String.ext hse⟩

/-- Witness for the amended claim C6 at concrete inputs. -/
theorem C6_amended_witness :
    ':' ∉ (replaceColons "arn:aws").data ∧
    (("u" : String) = "u" ∧ ("a" : String) = "a" ∧ ("s" : String) = "s") :=
  ⟨C6_amended_key_injective.1 "arn:aws",
   C6_amended_key_injective.2 "u" "u" "a" "a" "s" "s" (by decide) (by decide)
     (by decide) (by decide) (by decide) (by decide) rfl⟩

/-- The error code of a profile-loading result, `none` on success. -/
def errCode (r : Except AWSErr Value) : Option String :=
  match r with
  | .error e => some e.code
  | .ok _ => none

/-- Claim C8. Validation fails with the source-profile error exactly when
the role ARN is set and the source profile is empty; on a non-role
profile it fails with the access-key error exactly when the access key
id is empty, and with the secret-key error exactly when the access key
id is present and the secret access key is empty (the access-key check
runs first); in every remaining case validation succeeds with the value
unchanged. -/
theorem C8_validate_characterization (v : Value) (filename profile : String) :
    (errCode (validate v filename profile) = some "SharedCredsSourceProfile" ↔
      v.RoleARN ≠ "" ∧ v.SourceProfile = "") ∧
    (errCode (validate v filename profile) = some "SharedCredsAccessKey" ↔
      v.RoleARN = "" ∧ v.AccessKeyID = "") ∧
    (errCode (validate v filename profile) = some "SharedCredsSecret" ↔
      v.RoleARN = "" ∧ v.AccessKeyID ≠ "" ∧ v.SecretAccessKey = "") ∧
    (validate v filename profile = .ok v ↔
      ((v.RoleARN = "" ∧ v.AccessKeyID ≠ "" ∧ v.SecretAccessKey ≠ "") ∨
        (v.RoleARN ≠ "" ∧ v.SourceProfile ≠ ""))) := by
  unfold validate errCode
  split_ifs with h1 h2 h3 h4 <;> simp_all

/-- Claim C9. On the cache-enabled error branch the embedding is not
total: `FileCache.Set` on a nil response is a nil-pointer dereference;
even when `Set` is bypassed, finishing with a nil role output and no
error dereferences the nil response; and a role-chained `Assume` with
caching enabled whose client fails with a nil response reaches the
crash. -/
theorem C9_nil_response_crash :
    (∀ (c : FileCache) (fs : FS), c.Set fs none = none) ∧
    (∀ (p : SharedCredentialsProvider) (fs : FS) (calls : Nat) (sc : Bool),
      (finishAssume p none none fs calls sc).outcome = Outcome.crash) ∧
    (∀ (p : SharedCredentialsProvider) (client : AssumeRoler) (nowNano : Int)
        (cacheDir : String) (fs : FS) (creds src : Value) (e : AWSErr),
      p.Cache = true → (∀ inp, client inp = (none, some e)) →
      (p.Assume client nowNano cacheDir fs creds src).outcome = Outcome.crash) := by
  refine ⟨fun _ _ => rfl, fun _ _ _ _ => rfl, ?_⟩
  intro p client nowNano cacheDir fs creds src e hc hclient
  simp only [SharedCredentialsProvider.Assume, hclient]
  simp [applySTSDefaults_Cache, hc, FileCache.IsExpired, FileCache.Set]

/-- Witness for claim C9 at concrete inputs. -/
theorem C9_witness :
    (exProvider.Assume exErrClient 7 "d" []
      { RoleARN := "r", SourceProfile := "s" } {}).outcome = Outcome.crash :=
  C9_nil_response_crash.2.2 exProvider exErrClient 7 "d" []
    { RoleARN := "r", SourceProfile := "s" } {}
    ⟨"AssumeRoleFailure", "connection refused"⟩ rfl (fun _ => rfl)

/-- Claim C7, counterexample. A role-chained profile that omits
`source_profile` does not get the source profile defaulted to
`"default"`: `Retrieve` fails at profile loading with the
`SharedCredsSourceProfile` error and never reaches `Assume` (zero
client calls). -/
theorem C7_counterexample :
    (exProvider.Retrieve "" "" "" "" (some [("p", [("role_arn", "r")])])
        exOkClient 7 "d" []).outcome =
      Outcome.err ⟨"SharedCredsSourceProfile",
        "shared credentials p in f did not contain source_profile"⟩ ∧
    (exProvider.Retrieve "" "" "" "" (some [("p", [("role_arn", "r")])])
        exOkClient 7 "d" []).clientCalls = 0 :=
  ⟨rfl, rfl⟩

/-- Claim C5. When the loaded profile has an empty role ARN and passes
validation, `Retrieve` returns the extracted fields verbatim, sets the
`retrieved` flag, performs no network call, and `IsExpired` is false at
every later time. -/
theorem C5_static_fields_verbatim
    (p : SharedCredentialsProvider) (e1 e2 e3 envP fn : String)
    (config : IniFile) (sec : List (String × String))
    (client : AssumeRoler) (nowNano : Int) (cacheDir : String) (fs : FS)
    (hfn : p.filename e1 e2 e3 = .ok fn)
    (hsec : getSection config (p.profile envP) = some sec)
    (hrole : keyString sec "role_arn" = "")
    (hak : keyString sec "aws_access_key_id" ≠ "")
    (hsk : keyString sec "aws_secret_access_key" ≠ "") :
    (p.Retrieve e1 e2 e3 envP (some config) client nowNano cacheDir fs).outcome =
      Outcome.ok
        ⟨keyString sec "aws_access_key_id",
         keyString sec "aws_secret_access_key",
         keyString sec "aws_session_token", SharedCredsProviderName,
         keyString sec "role_arn", keyString sec "role_session_name",
         keyString sec "source_profile", "", keyString sec "mfa_serial"⟩ ∧
    (p.Retrieve e1 e2 e3 envP (some config) client nowNano cacheDir fs).provider.retrieved
      = true ∧
    (p.Retrieve e1 e2 e3 envP (some config) client nowNano cacheDir fs).clientCalls
      = 0 ∧
    ∀ now : Int,
      (p.Retrieve e1 e2 e3 envP (some config) client nowNano cacheDir
        fs).provider.IsExpired now = false := by
  unfold SharedCredentialsProvider.Retrieve
  dsimp only
  rw [filename_reset, hfn, profile_reset]
  dsimp only
  rw [loadProfile_static config sec fn (p.profile envP) hsec hrole hak hsk]
  dsimp only
  rw [hrole]
  simp [SharedCredentialsProvider.IsExpired]

/-- Witness for claim C5 at concrete inputs. -/
theorem C5_witness :
    let cfg : IniFile :=
      [("p", [("aws_access_key_id", "A"), ("aws_secret_access_key", "B")])]
    (exProvider.Retrieve "" "" "" "" (some cfg) exOkClient 7 "d" []).outcome =
      Outcome.ok ⟨"A", "B", "", SharedCredsProviderName, "", "", "", "", ""⟩ ∧
    (exProvider.Retrieve "" "" "" "" (some cfg) exOkClient 7 "d" []).provider.retrieved
      = true ∧
    (exProvider.Retrieve "" "" "" "" (some cfg) exOkClient 7 "d" []).clientCalls
      = 0 ∧
    ∀ now : Int,
      (exProvider.Retrieve "" "" "" "" (some cfg) exOkClient 7 "d"
        []).provider.IsExpired now = false :=
  C5_static_fields_verbatim exProvider "" "" "" "" "f"
    [("p", [("aws_access_key_id", "A"), ("aws_secret_access_key", "B")])]
    [("aws_access_key_id", "A"), ("aws_secret_access_key", "B")]
    exOkClient 7 "d" [] rfl rfl rfl (by decide) (by decide)

/-- Claim C7, amended. A role-chained profile with an empty source
profile never reaches the defaulting branch of `Retrieve`: profile
loading fails with the source-profile error, `Retrieve` returns it, and
the network client is not invoked; moreover any profile that passes
validation with a role ARN set has a nonempty source profile, so the
defaulting of the source profile to `"default"` inside `Retrieve` is
unreachable for loaded profiles. -/
theorem C7_amended_missing_source_fails :
    (∀ (p : SharedCredentialsProvider) (e1 e2 e3 envP fn : String)
        (config : IniFile) (sec : List (String × String))
        (client : AssumeRoler) (nowNano : Int) (cacheDir : String) (fs : FS),
      p.filename e1 e2 e3 = .ok fn →
      getSection config (p.profile envP) = some sec →
      keyString sec "role_arn" ≠ "" →
      keyString sec "source_profile" = "" →
      (p.Retrieve e1 e2 e3 envP (some config) client nowNano cacheDir fs).outcome =
        Outcome.err ⟨"SharedCredsSourceProfile",
          "shared credentials " ++ p.profile envP ++ " in " ++ fn ++
            " did not contain source_profile"⟩ ∧
      (p.Retrieve e1 e2 e3 envP (some config) client nowNano cacheDir
        fs).clientCalls = 0) ∧
    (∀ (v : Value) (fn prof : String) (w : Value),
      validate v fn prof = .ok w → w.RoleARN ≠ "" → w.SourceProfile ≠ "") := by
  constructor
  · intro p e1 e2 e3 envP fn config sec client nowNano cacheDir fs hfn hsec hrole hsrc
    unfold SharedCredentialsProvider.Retrieve
    dsimp only
    rw [filename_reset, hfn, profile_reset]
    dsimp only
    rw [loadProfile_missing_source config sec fn (p.profile envP) hsec hrole hsrc]
    exact ⟨rfl, rfl⟩
  · intro v fn prof w hval
    unfold validate at hval
    split_ifs at hval with h1 h2 h3 h4 <;> cases hval
    · intro hr
      exact absurd h1 hr
    · intro _
      exact h4

/-- Witness for the amended claim C7 at concrete inputs. -/
theorem C7_amended_witness :
    (exProvider.Retrieve "" "" "" "" (some [("p", [("role_arn", "r")])])
        exErrClient 7 "d" []).outcome =
      Outcome.err ⟨"SharedCredsSourceProfile",
        "shared credentials p in f did not contain source_profile"⟩ ∧
    (exProvider.Retrieve "" "" "" "" (some [("p", [("role_arn", "r")])])
        exErrClient 7 "d" []).clientCalls = 0 := by
  have h := C7_amended_missing_source_fails.1 exProvider "" "" "" "" "f"
    [("p", [("role_arn", "r")])] [("role_arn", "r")]
    exErrClient 7 "d" [] rfl rfl (by decide) rfl
  exact h

/-- The only `Retrieve` path that leaves the `retrieved` flag set is the
static-success path, whose outcome is `ok`. -/
theorem retrieve_retrieved_ok (p : SharedCredentialsProvider)
    (e1 e2 e3 envP : String) (file : Option IniFile) (client : AssumeRoler)
    (nowNano : Int) (cacheDir : String) (fs : FS) :
    (p.Retrieve e1 e2 e3 envP file client nowNano cacheDir
      fs).provider.retrieved = true →
    ∃ v, (p.Retrieve e1 e2 e3 envP file client nowNano cacheDir fs).outcome =
      Outcome.ok v := by
  unfold SharedCredentialsProvider.Retrieve
  dsimp only
  split
  · intro habs
    simp at habs
  · split
    · intro habs
      simp at habs
    · split
      · split
        · intro habs
          simp at habs
        · rw [assume_retrieved]
          intro habs
          simp at habs
      · intro _
        exact ⟨_, rfl⟩

/-- Claim C10. Every `Retrieve` resets the `retrieved` flag before any
other work: whenever `Retrieve` returns an error, the post-state flag
is false. In particular, starting from the state left by a successful
static retrieval (flag set, expiration never set, so still the zero
time), a failing `Retrieve` (unparseable credentials file) flips
`IsExpired` from false to true at any nonnegative current time. -/
theorem C10_retrieve_resets_flag :
    (∀ (p : SharedCredentialsProvider) (e1 e2 e3 envP : String)
        (file : Option IniFile) (client : AssumeRoler) (nowNano : Int)
        (cacheDir : String) (fs : FS) (e : AWSErr),
      (p.Retrieve e1 e2 e3 envP file client nowNano cacheDir fs).outcome =
        Outcome.err e →
      (p.Retrieve e1 e2 e3 envP file client nowNano cacheDir
        fs).provider.retrieved = false) ∧
    (∀ (p : SharedCredentialsProvider) (e1 e2 e3 envP fn : String)
        (client : AssumeRoler) (nowNano now : Int) (cacheDir : String) (fs : FS),
      p.retrieved = true → p.Expiry.expiration ≤ now →
      p.filename e1 e2 e3 = .ok fn →
      p.IsExpired now = false ∧
      (p.Retrieve e1 e2 e3 envP none client nowNano cacheDir fs).outcome =
        Outcome.err ⟨"SharedCredsLoad",
          "failed to load shared credentials file"⟩ ∧
      (p.Retrieve e1 e2 e3 envP none client nowNano cacheDir
        fs).provider.IsExpired now = true) := by
  constructor
  · intro p e1 e2 e3 envP file client nowNano cacheDir fs e h
    by_contra hne
    have htrue : (p.Retrieve e1 e2 e3 envP file client nowNano cacheDir
        fs).provider.retrieved = true := by
      rcases hb : (p.Retrieve e1 e2 e3 envP file client nowNano cacheDir
          fs).provider.retrieved
      · exact absurd hb hne
      · rfl
    rcases retrieve_retrieved_ok p e1 e2 e3 envP file client nowNano cacheDir
        fs htrue with ⟨v, hv⟩
    rw [h] at hv
    cases hv
  · intro p e1 e2 e3 envP fn client nowNano now cacheDir fs hr hexp hfn
    refine ⟨?_, ?_, ?_⟩
    · simp [SharedCredentialsProvider.IsExpired, hr]
    · unfold SharedCredentialsProvider.Retrieve
      dsimp only
      rw [filename_reset, hfn]
      rfl
    · unfold SharedCredentialsProvider.Retrieve
      dsimp only
      rw [filename_reset, hfn]
      dsimp only
      simp [loadProfile, SharedCredentialsProvider.IsExpired, Expiry.IsExpired,
        hexp]

/-- Witness for claim C10 at concrete inputs: the state left by a
successful static retrieval, then a `Retrieve` whose credentials file
fails to parse. -/
theorem C10_witness :
    ({ Filename := "f", Profile := "p", retrieved := true } :
        SharedCredentialsProvider).IsExpired 5 = false ∧
    (({ Filename := "f", Profile := "p", retrieved := true } :
        SharedCredentialsProvider).Retrieve "" "" "" "" none exOkClient 7 "d"
        []).outcome =
      Outcome.err ⟨"SharedCredsLoad", "failed to load shared credentials file"⟩ ∧
    (({ Filename := "f", Profile := "p", retrieved := true } :
        SharedCredentialsProvider).Retrieve "" "" "" "" none exOkClient 7 "d"
        []).provider.retrieved = false ∧
    (({ Filename := "f", Profile := "p", retrieved := true } :
        SharedCredentialsProvider).Retrieve "" "" "" "" none exOkClient 7 "d"
        []).provider.IsExpired 5 = true := by
  have h2 := C10_retrieve_resets_flag.2
    { Filename := "f", Profile := "p", retrieved := true } "" "" "" "" "f"
    exOkClient 7 5 "d" [] rfl (by decide) rfl
  have h1 := C10_retrieve_resets_flag.1
    { Filename := "f", Profile := "p", retrieved := true } "" "" "" "" none
    exOkClient 7 "d" [] ⟨"SharedCredsLoad", "failed to load shared credentials file"⟩
    h2.2.1
  exact ⟨h2.1, h2.2.1, h1, h2.2.2⟩

/-- Claim C3, amended. `IsExpired` is true iff the `retrieved` flag is
false AND the current time is at or past the stored (window-adjusted)
expiration: the code conjoins the two conditions. Consequently it is
true before the first successful retrieval (flag false, zero
expiration) at any nonnegative time, and after a successful role
assumption — which leaves the flag false — it is false strictly before
`expiration − window` and becomes true exactly at that instant. -/
theorem C3_amended_is_expired :
    (∀ (p : SharedCredentialsProvider) (now : Int),
      p.IsExpired now = true ↔
        (p.retrieved = false ∧ p.Expiry.expiration ≤ now)) ∧
    (∀ now : Int, 0 ≤ now →
      SharedCredentialsProvider.IsExpired {} now = true) ∧
    (∀ (p : SharedCredentialsProvider) (client : AssumeRoler)
        (nowNano exp win now : Int) (ak sk st : String) (cacheDir : String)
        (fs : FS) (creds src : Value),
      p.retrieved = false → p.STS.ExpiryWindow = win → 0 < win →
      (∀ inp, client inp =
        (some ⟨some ⟨some ak, some sk, some st, some exp⟩⟩, none)) →
      ((p.Assume client nowNano cacheDir fs creds src).provider.IsExpired now =
          true ↔ exp - win ≤ now)) := by
  refine ⟨?_, ?_, ?_⟩
  · intro p now
    simp [SharedCredentialsProvider.IsExpired, Expiry.IsExpired]
  · intro now h
    simp [SharedCredentialsProvider.IsExpired, Expiry.IsExpired]
    exact h
  · intro p client nowNano exp win now ak sk st cacheDir fs creds src
      hr hw hwpos hclient
    unfold SharedCredentialsProvider.Assume
    dsimp only
    simp only [hclient, FileCache.IsExpired, Bool.not_true, Bool.false_eq_true,
      if_false, finishAssume, ite_self]
    simp [SharedCredentialsProvider.IsExpired, Expiry.IsExpired,
      Expiry.SetExpiration, applySTSDefaults_retrieved,
      applySTSDefaults_ExpiryWindow, hr, hw, hwpos]

/-- Witness for the amended claim C3 at concrete inputs: a provider with
expiry window `10` assuming a role whose session expires at `1000`. -/
theorem C3_amended_witness :
    SharedCredentialsProvider.IsExpired {} 3 = true ∧
    ((({ STS := { ExpiryWindow := 10 } } :
        SharedCredentialsProvider).Assume exOkClient 7 "d" [] {}
        {}).provider.IsExpired 995 = true ↔ (1000 : Int) - 10 ≤ 995) :=
  ⟨C3_amended_is_expired.2.1 3 (by decide),
   C3_amended_is_expired.2.2 { STS := { ExpiryWindow := 10 } } exOkClient
     7 1000 10 995 "AK" "SK" "ST" "d" [] {} {} rfl rfl (by decide)
     (fun _ => rfl)⟩

end SharedCreds
